import Mathlib

/-!
Shallow embedding of `src/search.py` from the parallel-search-mcp repository:
the `parallel_search` and `extract` adapter functions, their request-body
construction, credential resolution, and the normalization of parsed JSON
response bodies into `SearchResponse` / `ExtractResponse` values.

JSON values are modelled by the inductive `Json`; Python runtime behaviour
relevant to the code (dict `.get`, truthiness, iteration, `str.join`,
pydantic field validation) is modelled explicitly, with runtime failures
surfacing as `Except` errors.
-/

/-- A parsed JSON value, as produced by `response.json()`. -/
inductive Json where
  | null
  | bool (b : Bool)
  | num (n : Int)
  | str (s : String)
  | arr (elems : List Json)
  | obj (fields : List (String × Json))

/-- First-match lookup of a key in a JSON object's field list
(models Python dict key lookup; parsed JSON dicts have unique keys). -/
def lookupKey : List (String × Json) → String → Option Json
  | [], _ => none
  | (k, v) :: rest, key => if k = key then some v else lookupKey rest key

/-- Python truthiness of a JSON value (`None`, `False`, `0`, `""`, `[]`, `{}`
are falsy). -/
def Json.truthy : Json → Bool
  | .null => false
  | .bool b => b
  | .num n => n != 0
  | .str s => s ≠ ""
  | .arr l => !l.isEmpty
  | .obj f => !f.isEmpty

/-- A Python runtime / validation error raised while normalizing a
200-response body. -/
inductive PyErr where
  | attributeError
  | typeError
  | validationError
deriving DecidableEq

/-- `x.get(key, default)` where `x` is expected to be a dict: raises
`AttributeError` when `x` is not a dict. -/
def pyGetD (j : Json) (k : String) (d : Json) : Except PyErr Json :=
  match j with
  | .obj fs => .ok ((lookupKey fs k).getD d)
  | _ => .error .attributeError

/-- Python iteration (`for item in x`): lists yield their elements, strings
yield their characters (as one-character strings), dicts yield their keys;
anything else raises `TypeError`. -/
def pyIter : Json → Except PyErr (List Json)
  | .arr l => .ok l
  | .str s => .ok (s.data.map fun c => Json.str (String.singleton c))
  | .obj fs => .ok (fs.map fun kv => Json.str kv.fst)
  | _ => .error .typeError

/-- pydantic validation of a `str | None` field: JSON null maps to `none`,
strings pass through, anything else is a validation error. -/
def validateOptStr : Json → Except PyErr (Option String)
  | .null => .ok none
  | .str s => .ok (some s)
  | _ => .error .validationError

/-- pydantic validation of a required `str` field. -/
def validateStr : Json → Except PyErr String
  | .str s => .ok s
  | _ => .error .validationError

/-- Extract the strings of a JSON list, provided every element is a string. -/
def allStrings : List Json → Option (List String)
  | [] => some []
  | .str s :: rest => (allStrings rest).map fun strs => s :: strs
  | _ :: _ => none

/-- Python `"\n\n".join(x)`: joins a list of strings, a string's characters,
or a dict's keys; raises `TypeError` otherwise (including on a list with a
non-string element). -/
def joinBlankLine : Json → Except PyErr String
  | .arr es =>
      match allStrings es with
      | some strs => .ok (String.intercalate "\n\n" strs)
      | none => .error .typeError
  | .str s => .ok (String.intercalate "\n\n" (s.data.map fun c => String.singleton c))
  | .obj fs => .ok (String.intercalate "\n\n" (fs.map fun kv => kv.fst))
  | _ => .error .typeError

/-- Sequential effectful map over a list in the `Except` monad: the first
error aborts the whole computation (models a Python list comprehension whose
body may raise). -/
def mapExcept (f : α → Except ε β) : List α → Except ε (List β)
  | [] => .ok []
  | x :: xs =>
      match f x with
      | .error e => .error e
      | .ok y =>
          match mapExcept f xs with
          | .error e => .error e
          | .ok ys => .ok (y :: ys)

/-- `SearchResult` pydantic model from `src/search.py`. -/
structure SearchResult where
  title : Option String
  url : Option String
  excerpt : Option String
  source : Option String
deriving DecidableEq

/-- `SearchResponse` pydantic model from `src/search.py`. -/
structure SearchResponse where
  query : String
  results : List SearchResult
  total_results : Nat
deriving DecidableEq

/-- The expression `item.get("excerpt") or item.get("content")` from the
grouped-by-query branch: the `excerpt` value when truthy, else the `content`
value (absent keys behaving as `None`). -/
def groupedExcerptVal (fs : List (String × Json)) : Json :=
  let a := (lookupKey fs "excerpt").getD .null
  if a.truthy then a else (lookupKey fs "content").getD .null

/-- Build one `SearchResult` from an item of a grouped-by-query result group
(lines 105-110 of `src/search.py`). -/
def parseGroupedItem : Json → Except PyErr SearchResult
  | .obj fs =>
      match validateOptStr ((lookupKey fs "title").getD .null) with
      | .error e => .error e
      | .ok title =>
          match validateOptStr ((lookupKey fs "url").getD .null) with
          | .error e => .error e
          | .ok url =>
              match validateOptStr (groupedExcerptVal fs) with
              | .error e => .error e
              | .ok excerpt =>
                  match validateOptStr ((lookupKey fs "source").getD .null) with
                  | .error e => .error e
                  | .ok source => .ok ⟨title, url, excerpt, source⟩
  | _ => .error .attributeError

/-- Build one `SearchResponse` from a result group (lines 101-117 of
`src/search.py`): parse the nested items, then validate the group's `query`
field (defaulting to `""` when absent). -/
def parseGroup : Json → Except PyErr SearchResponse
  | .obj fs =>
      match pyIter ((lookupKey fs "results").getD (.arr [])) with
      | .error e => .error e
      | .ok items =>
          match mapExcept parseGroupedItem items with
          | .error e => .error e
          | .ok srs =>
              match validateStr ((lookupKey fs "query").getD (.str "")) with
              | .error e => .error e
              | .ok q => .ok ⟨q, srs, srs.length⟩
  | _ => .error .attributeError

/-- The flat-branch excerpt expression (line 124 of `src/search.py`):
`"\n\n".join(item.get("excerpts", [])) if item.get("excerpts") else
item.get("content")`, followed by pydantic validation of the `str | None`
excerpt field. -/
def flatExcerpt (fs : List (String × Json)) : Except PyErr (Option String) :=
  let exVal := (lookupKey fs "excerpts").getD .null
  if exVal.truthy then
    match joinBlankLine exVal with
    | .error e => .error e
    | .ok s => .ok (some s)
  else
    validateOptStr ((lookupKey fs "content").getD .null)

/-- Build one `SearchResult` from a flat-shape result item (lines 120-128 of
`src/search.py`). -/
def parseFlatItem : Json → Except PyErr SearchResult
  | .obj fs =>
      match validateOptStr ((lookupKey fs "title").getD .null) with
      | .error e => .error e
      | .ok title =>
          match validateOptStr ((lookupKey fs "url").getD .null) with
          | .error e => .error e
          | .ok url =>
              match flatExcerpt fs with
              | .error e => .error e
              | .ok excerpt =>
                  match validateOptStr ((lookupKey fs "source").getD .null) with
                  | .error e => .error e
                  | .ok source => .ok ⟨title, url, excerpt, source⟩
  | _ => .error .attributeError

/-- Shape-disambiguation test on the first element of the raw results list
(line 100 of `src/search.py`): `isinstance(results_data[0], dict) and
"query" in results_data[0]`. -/
def isGroupedHead : Json → Bool
  | .obj fs => (lookupKey fs "query").isSome
  | _ => false

/-- Normalization of a parsed 200-response body by `parallel_search`
(lines 92-144 of `src/search.py`). -/
def normalizeSearch (queries : List String) (data : Json) : Except PyErr (List SearchResponse) :=
  match pyGetD data "results" (.arr []) with
  | .error e => .error e
  | .ok resultsData =>
      match resultsData with
      | .arr (g :: gs) =>
          if isGroupedHead g then
            mapExcept parseGroup (g :: gs)
          else
            match mapExcept parseFlatItem (g :: gs) with
            | .error e => .error e
            | .ok srs => .ok [⟨String.intercalate ", " queries, srs, srs.length⟩]
      | _ => .ok (queries.map fun q => ⟨q, [], 0⟩)

/-- The synthesized default objective (line 77 of `src/search.py`). -/
def defaultObjective (queries : List String) : String :=
  "Find relevant information for: " ++ String.intercalate ", " queries

/-- The outbound search request body (lines 67-77 of `src/search.py`): the
`objective` key is always present, holding the caller's objective when truthy
and the synthesized default otherwise. -/
def searchBody (queries : List String) (objective : Option String)
    (maxResults maxCharsPerResult : Int) : Json :=
  let objStr :=
    match objective with
    | some s => if s = "" then defaultObjective queries else s
    | none => defaultObjective queries
  Json.obj [("search_queries", Json.arr (queries.map Json.str)),
            ("max_results", Json.num maxResults),
            ("excerpts", Json.obj [("max_chars_per_result", Json.num maxCharsPerResult)]),
            ("objective", Json.str objStr)]

/-- Base URL constant from `src/search.py`. -/
def PARALLEL_API_BASE : String := "https://api.parallel.ai/v1beta"

/-- Beta-feature marker header constant from `src/search.py`. -/
def PARALLEL_BETA_HEADER : String := "search-extract-2025-10-10"

/-- An outbound HTTP POST issued by an adapter. -/
structure OutboundRequest where
  url : String
  headers : List (String × String)
  body : Json

/-- The remote service's reply: HTTP status, raw body text, and the parsed
JSON body (consulted only on status 200). -/
structure HttpResponse where
  status : Nat
  text : String
  json : Json

/-- Truthiness of an optional Python string (`None` and `""` are falsy). -/
def truthyOptStr : Option String → Bool
  | none => false
  | some s => s ≠ ""

/-- Credential resolution (lines 56-58 of `src/search.py`):
`api_key = api_key or os.getenv("PARALLEL_API_KEY")`, then
`if not api_key: raise`. Returns the usable key, or `none` when the
`ValueError` is raised. -/
def resolveApiKey (apiKey envKey : Option String) : Option String :=
  let k := if truthyOptStr apiKey then apiKey else envKey
  if truthyOptStr k then k else none

/-- An error raised by an adapter call: the missing-credential `ValueError`,
the non-200 `Exception`, or a Python error during normalization. -/
inductive AdapterError where
  | configError (msg : String)
  | apiError (msg : String)
  | pyError (e : PyErr)
deriving DecidableEq

/-- The shared request headers (lines 60-64 of `src/search.py`). -/
def requestHeaders (key : String) : List (String × String) :=
  [("Content-Type", "application/json"),
   ("x-api-key", key),
   ("parallel-beta", PARALLEL_BETA_HEADER)]

/-- The search request as posted to the remote service. -/
def mkSearchRequest (key : String) (queries : List String) (objective : Option String)
    (maxResults maxCharsPerResult : Int) : OutboundRequest :=
  ⟨PARALLEL_API_BASE ++ "/search", requestHeaders key,
   searchBody queries objective maxResults maxCharsPerResult⟩

/-- The `parallel_search` adapter (lines 37-144 of `src/search.py`).
`apiKey` is the explicit override parameter, `envKey` the value of the
`PARALLEL_API_KEY` environment variable, and `respond` the remote service's
behaviour. Returns the call's outcome together with the list of outbound
HTTP requests actually issued. -/
def parallelSearch (queries : List String) (objective : Option String)
    (maxResults maxCharsPerResult : Int) (apiKey envKey : Option String)
    (respond : OutboundRequest → HttpResponse) :
    Except AdapterError (List SearchResponse) × List OutboundRequest :=
  match resolveApiKey apiKey envKey with
  | none => (.error (.configError "PARALLEL_API_KEY environment variable not set"), [])
  | some key =>
      let req := mkSearchRequest key queries objective maxResults maxCharsPerResult
      let r := respond req
      if r.status = 200 then
        ((normalizeSearch queries r.json).mapError AdapterError.pyError, [req])
      else
        (.error (.apiError ("Parallel API error (" ++ toString r.status ++ "): " ++ r.text)),
         [req])

/-- `ExtractResult` pydantic model from `src/search.py`. -/
structure ExtractResult where
  url : String
  title : Option String
  publish_date : Option String
  excerpts : Option (List String)
  full_content : Option String
deriving DecidableEq

/-- `ExtractResponse` pydantic model from `src/search.py`; an error record is
a free-form JSON object (a Python dict). -/
structure ExtractResponse where
  extract_id : Option String
  results : List ExtractResult
  errors : List (List (String × Json))

/-- pydantic validation of a `list[str] | None` field. -/
def validateOptStrList : Json → Except PyErr (Option (List String))
  | .null => .ok none
  | .arr es =>
      match allStrings es with
      | some strs => .ok (some strs)
      | none => .error .validationError
  | _ => .error .validationError

/-- Extract the field lists of a JSON list, provided every element is an
object. -/
def allObjs : List Json → Option (List (List (String × Json)))
  | [] => some []
  | .obj fs :: rest => (allObjs rest).map fun os => fs :: os
  | _ :: _ => none

/-- pydantic validation of a `list[dict]` field. -/
def validateListDict : Json → Except PyErr (List (List (String × Json)))
  | .arr es =>
      match allObjs es with
      | some os => .ok os
      | none => .error .validationError
  | _ => .error .validationError

/-- Build one `ExtractResult` from a raw result item (lines 214-220 of
`src/search.py`); the `url` field defaults to `""` when absent. -/
def parseExtractItem : Json → Except PyErr ExtractResult
  | .obj fs =>
      match validateStr ((lookupKey fs "url").getD (.str "")) with
      | .error e => .error e
      | .ok url =>
          match validateOptStr ((lookupKey fs "title").getD .null) with
          | .error e => .error e
          | .ok title =>
              match validateOptStr ((lookupKey fs "publish_date").getD .null) with
              | .error e => .error e
              | .ok pd =>
                  match validateOptStrList ((lookupKey fs "excerpts").getD .null) with
                  | .error e => .error e
                  | .ok ex =>
                      match validateOptStr ((lookupKey fs "full_content").getD .null) with
                      | .error e => .error e
                      | .ok fc => .ok ⟨url, title, pd, ex, fc⟩
  | _ => .error .attributeError

/-- Normalization of a parsed 200-response body by `extract`
(lines 213-228 of `src/search.py`). -/
def normalizeExtract (data : Json) : Except PyErr ExtractResponse :=
  match data with
  | .obj dfs =>
      match pyIter ((lookupKey dfs "results").getD (.arr [])) with
      | .error e => .error e
      | .ok items =>
          match mapExcept parseExtractItem items with
          | .error e => .error e
          | .ok results =>
              match validateOptStr ((lookupKey dfs "extract_id").getD .null) with
              | .error e => .error e
              | .ok eid =>
                  match validateListDict ((lookupKey dfs "errors").getD (.arr [])) with
                  | .error e => .error e
                  | .ok errs => .ok ⟨eid, results, errs⟩
  | _ => .error .attributeError

/-- The outbound extract request body (lines 192-199 of `src/search.py`):
`urls`, `excerpts` and `full_content` pass through verbatim, and the
`objective` key is added only when the objective is truthy. -/
def extractBody (urls : List String) (objective : Option String)
    (excerpts full_content : Bool) : Json :=
  let base := [("urls", Json.arr (urls.map Json.str)),
               ("excerpts", Json.bool excerpts),
               ("full_content", Json.bool full_content)]
  match objective with
  | some s => if s = "" then Json.obj base else Json.obj (base ++ [("objective", Json.str s)])
  | none => Json.obj base

/-- The extract request as posted to the remote service. -/
def mkExtractRequest (key : String) (urls : List String) (objective : Option String)
    (excerpts full_content : Bool) : OutboundRequest :=
  ⟨PARALLEL_API_BASE ++ "/extract", requestHeaders key,
   extractBody urls objective excerpts full_content⟩

/-- The `extract` adapter (lines 163-228 of `src/search.py`), modelled like
`parallelSearch`. -/
def extract (urls : List String) (objective : Option String)
    (excerpts full_content : Bool) (apiKey envKey : Option String)
    (respond : OutboundRequest → HttpResponse) :
    Except AdapterError ExtractResponse × List OutboundRequest :=
  match resolveApiKey apiKey envKey with
  | none => (.error (.configError "PARALLEL_API_KEY environment variable not set"), [])
  | some key =>
      let req := mkExtractRequest key urls objective excerpts full_content
      let r := respond req
      if r.status = 200 then
        ((normalizeExtract r.json).mapError AdapterError.pyError, [req])
      else
        (.error (.apiError ("Parallel API error (" ++ toString r.status ++ "): " ++ r.text)),
         [req])

/-! ## Structural well-shapedness of 200-response bodies

These predicates delimit the payloads on which normalization is total: the
body is a JSON object, nested result collections are lists of objects, and
each consulted field — when present at all — carries a value of the type the
pydantic models declare. They say nothing about which optional fields are
present. -/

/-- Well-shaped optional scalar field value: absent, JSON null, or a
string. -/
def wfLeafVal : Option Json → Bool
  | none => true
  | some .null => true
  | some (.str _) => true
  | some _ => false

/-- Is the value a JSON list whose elements are all strings? -/
def isStrList : Json → Bool
  | .arr es => es.all fun e => match e with | .str _ => true | _ => false
  | _ => false

/-- Well-shaped item of a grouped-by-query result group. -/
def wfGroupedItem : Json → Bool
  | .obj fs =>
      wfLeafVal (lookupKey fs "title") && wfLeafVal (lookupKey fs "url") &&
      wfLeafVal (lookupKey fs "excerpt") && wfLeafVal (lookupKey fs "content") &&
      wfLeafVal (lookupKey fs "source")
  | _ => false

/-- Well-shaped item of a flat-shape results list. -/
def wfFlatItem : Json → Bool
  | .obj fs =>
      wfLeafVal (lookupKey fs "title") && wfLeafVal (lookupKey fs "url") &&
      (match lookupKey fs "excerpts" with
        | none => true
        | some .null => true
        | some v => isStrList v) &&
      wfLeafVal (lookupKey fs "content") && wfLeafVal (lookupKey fs "source")
  | _ => false

/-- Well-shaped grouped-by-query result group. -/
def wfGroup : Json → Bool
  | .obj fs =>
      (match lookupKey fs "query" with
        | none => true
        | some (.str _) => true
        | some _ => false) &&
      (match lookupKey fs "results" with
        | none => true
        | some (.arr items) => items.all wfGroupedItem
        | some _ => false)
  | _ => false

/-- Well-shaped raw results value of a search 200-response body (after the
`data.get("results", [])` default). -/
def wfResultsVal : Json → Bool
  | .arr [] => true
  | .arr (g :: gs) =>
      if isGroupedHead g then (g :: gs).all wfGroup else (g :: gs).all wfFlatItem
  | _ => true

/-- Well-shaped search 200-response body. -/
def wfSearchPayload : Json → Bool
  | .obj fs => wfResultsVal ((lookupKey fs "results").getD (.arr []))
  | _ => false

/-- Well-shaped extract result item. -/
def wfExtractItem : Json → Bool
  | .obj fs =>
      (match lookupKey fs "url" with
        | none => true
        | some (.str _) => true
        | some _ => false) &&
      wfLeafVal (lookupKey fs "title") && wfLeafVal (lookupKey fs "publish_date") &&
      (match lookupKey fs "excerpts" with
        | none => true
        | some .null => true
        | some v => isStrList v) &&
      wfLeafVal (lookupKey fs "full_content")
  | _ => false

/-- Well-shaped extract 200-response body. -/
def wfExtractPayload : Json → Bool
  | .obj fs =>
      wfLeafVal (lookupKey fs "extract_id") &&
      (match lookupKey fs "results" with
        | none => true
        | some (.arr items) => items.all wfExtractItem
        | some _ => false) &&
      (match lookupKey fs "errors" with
        | none => true
        | some (.arr es) => es.all fun e => match e with | .obj _ => true | _ => false
        | some _ => false)
  | _ => false

/-! ## Helper lemmas -/

theorem mapError_ok {ε ε' α : Type} {f : ε → ε'} {e : Except ε α} {x : α}
    (h : Except.mapError f e = .ok x) : e = .ok x := by
  cases e with
  | error err => simp [Except.mapError] at h
  | ok y => simpa [Except.mapError] using h

theorem mapExcept_length {α β ε : Type} {f : α → Except ε β} {l : List α} {l' : List β}
    (h : mapExcept f l = .ok l') : l'.length = l.length := by
  induction l generalizing l' with
  | nil => simp only [mapExcept] at h; cases h; rfl
  | cons x xs ih =>
    simp only [mapExcept] at h
    cases hfx : f x with
    | error e => rw [hfx] at h; cases h
    | ok y =>
      rw [hfx] at h
      cases hrec : mapExcept f xs with
      | error e => rw [hrec] at h; cases h
      | ok ys =>
        rw [hrec] at h
        cases h
        simp [ih hrec]

theorem mapExcept_mem {α β ε : Type} {f : α → Except ε β} {l : List α} {l' : List β}
    (h : mapExcept f l = .ok l') : ∀ y ∈ l', ∃ x ∈ l, f x = .ok y := by
  induction l generalizing l' with
  | nil => simp only [mapExcept] at h; cases h; intro y hy; cases hy
  | cons x xs ih =>
    simp only [mapExcept] at h
    cases hfx : f x with
    | error e => rw [hfx] at h; cases h
    | ok y =>
      rw [hfx] at h
      cases hrec : mapExcept f xs with
      | error e => rw [hrec] at h; cases h
      | ok ys =>
        rw [hrec] at h
        cases h
        intro z hz
        rcases List.mem_cons.mp hz with hz | hz
        · exact ⟨x, List.mem_cons_self x xs, hz ▸ hfx⟩
        · rcases ih hrec z hz with ⟨w, hw, hfw⟩
          exact ⟨w, List.mem_cons_of_mem x hw, hfw⟩

theorem mapExcept_ok_of_forall {α β ε : Type} {f : α → Except ε β} {l : List α}
    (h : ∀ x ∈ l, ∃ y, f x = .ok y) : ∃ l', mapExcept f l = .ok l' := by
  induction l with
  | nil => exact ⟨[], rfl⟩
  | cons x xs ih =>
    rcases h x (List.mem_cons_self x xs) with ⟨y, hy⟩
    rcases ih (fun z hz => h z (List.mem_cons_of_mem x hz)) with ⟨ys, hys⟩
    exact ⟨y :: ys, by simp only [mapExcept, hy, hys]⟩

theorem parallelSearch_const_run {qs : List String} {obj : Option String} {mr mc : Int}
    {apiKey envKey : Option String} {k : String} {r : HttpResponse}
    (hk : resolveApiKey apiKey envKey = some k) (hs : r.status = 200) :
    (parallelSearch qs obj mr mc apiKey envKey fun _ => r).fst
      = (normalizeSearch qs r.json).mapError AdapterError.pyError := by
  simp [parallelSearch, hk, hs]

theorem parallelSearch_ok_normalize {qs : List String} {obj : Option String} {mr mc : Int}
    {apiKey envKey : Option String} {r : HttpResponse} {rs : List SearchResponse}
    (h : (parallelSearch qs obj mr mc apiKey envKey fun _ => r).fst = .ok rs) :
    normalizeSearch qs r.json = .ok rs := by
  unfold parallelSearch at h
  cases hk : resolveApiKey apiKey envKey with
  | none => rw [hk] at h; cases h
  | some key =>
    rw [hk] at h
    simp only at h
    by_cases hs : r.status = 200
    · rw [if_pos hs] at h
      exact mapError_ok h
    · rw [if_neg hs] at h
      cases h

theorem parseGroup_total {j : Json} {resp : SearchResponse}
    (h : parseGroup j = .ok resp) : resp.total_results = resp.results.length := by
  unfold parseGroup at h
  repeat' split at h
  all_goals first
    | (cases h; rfl)
    | cases h

theorem normalizeSearch_total {qs : List String} {data : Json} {rs : List SearchResponse}
    (h : normalizeSearch qs data = .ok rs) :
    ∀ x ∈ rs, x.total_results = x.results.length := by
  unfold normalizeSearch at h
  split at h
  · cases h
  · split at h
    · split at h
      · intro x hx
        rcases mapExcept_mem h x hx with ⟨j, _, hj⟩
        exact parseGroup_total hj
      · split at h
        · cases h
        · cases h
          intro x hx
          rcases List.mem_singleton.mp hx with rfl
          rfl
    · cases h
      intro x hx
      rcases List.mem_map.mp hx with ⟨q, _, rfl⟩
      rfl

/-! ## Claim theorems -/

/-- C1 (counterexample): with two input queries and a grouped-by-query
payload containing a single group, `parallel_search` returns one response,
not two — the returned length tracks the number of payload groups, not the
query count. -/
theorem c1_counterexample :
    (parallelSearch ["a", "b"] none 10 10000 (some "k") none (fun _ => ⟨200, "",
        Json.obj [("results", Json.arr [Json.obj [("query", Json.str "a"),
          ("results", Json.arr [])]])]⟩)).fst
      = .ok [⟨"a", [], 0⟩]
    ∧ List.length [SearchResponse.mk "a" [] 0] ≠ List.length ["a", "b"] :=
  ⟨rfl, by decide⟩

/-- C1 (amended): for every non-empty query list, when the 200 payload's raw
results list is non-empty and grouped-by-query (first element carries a
`query` key), the returned `SearchResponse` list has length equal to the
number of groups in the payload (which equals the query count exactly when
the payload carries one group per query); when the payload is flat-shape,
the returned list has length exactly 1, regardless of the query count. -/
theorem c1_response_count : ∀ (qs : List String) (obj : Option String) (mr mc : Int)
    (apiKey envKey : Option String) (r : HttpResponse) (fs : List (String × Json))
    (g : Json) (gs : List Json) (rs : List SearchResponse),
    qs ≠ [] →
    r.status = 200 →
    r.json = Json.obj fs →
    (lookupKey fs "results").getD (Json.arr []) = Json.arr (g :: gs) →
    (parallelSearch qs obj mr mc apiKey envKey fun _ => r).fst = .ok rs →
    (isGroupedHead g = true → rs.length = (g :: gs).length)
    ∧ (isGroupedHead g = false → rs.length = 1) := by
  intro qs obj mr mc apiKey envKey r fs g gs rs _ _ hjson hres hrun
  have hn : normalizeSearch qs (Json.obj fs) = .ok rs := by
    rw [← hjson]; exact parallelSearch_ok_normalize hrun
  unfold normalizeSearch at hn
  rw [show pyGetD (Json.obj fs) "results" (Json.arr []) = .ok (Json.arr (g :: gs)) from by
    simp [pyGetD, hres]] at hn
  simp only at hn
  constructor
  · intro hgh
    rw [if_pos hgh] at hn
    simpa using mapExcept_length hn
  · intro hgh
    rw [if_neg (by simp [hgh])] at hn
    split at hn
    · cases hn
    · cases hn; rfl

/-- C1 (witness): a grouped payload with two groups and two queries yields
two responses, and a flat payload yields one response for two queries. -/
theorem c1_witness :
    isGroupedHead (Json.obj [("query", Json.str "a"), ("results", Json.arr [])]) = true
    ∧ List.length [SearchResponse.mk "a" [] 0, SearchResponse.mk "b" [] 0]
        = List.length [Json.obj [("query", Json.str "a"), ("results", Json.arr [])],
                       Json.obj [("query", Json.str "b"), ("results", Json.arr [])]] :=
  ⟨rfl,
   (c1_response_count ["a", "b"] none 10 10000 (some "k") none
      ⟨200, "", Json.obj [("results", Json.arr
        [Json.obj [("query", Json.str "a"), ("results", Json.arr [])],
         Json.obj [("query", Json.str "b"), ("results", Json.arr [])]])]⟩
      [("results", Json.arr
        [Json.obj [("query", Json.str "a"), ("results", Json.arr [])],
         Json.obj [("query", Json.str "b"), ("results", Json.arr [])]])]
      (Json.obj [("query", Json.str "a"), ("results", Json.arr [])])
      [Json.obj [("query", Json.str "b"), ("results", Json.arr [])]]
      [⟨"a", [], 0⟩, ⟨"b", [], 0⟩]
      (by decide) rfl rfl rfl rfl).left rfl⟩

/-- C2: every `SearchResponse` produced by a `parallel_search` call, under
any remote payload shape, has `total_results` equal to the length of its
`results` list. -/
theorem c2_total_results_invariant : ∀ (qs : List String) (obj : Option String) (mr mc : Int)
    (apiKey envKey : Option String) (respond : OutboundRequest → HttpResponse)
    (rs : List SearchResponse),
    (parallelSearch qs obj mr mc apiKey envKey respond).fst = .ok rs →
    ∀ x ∈ rs, x.total_results = x.results.length := by
  intro qs obj mr mc apiKey envKey respond rs h
  unfold parallelSearch at h
  cases hk : resolveApiKey apiKey envKey with
  | none => rw [hk] at h; cases h
  | some key =>
    rw [hk] at h
    simp only at h
    split at h
    · exact normalizeSearch_total (mapError_ok h)
    · cases h

/-- C2 (witness): a concrete grouped-payload call in which the produced
response satisfies the invariant. -/
theorem c2_witness :
    (parallelSearch ["a"] none 10 10000 (some "k") none (fun _ => ⟨200, "",
        Json.obj [("results", Json.arr [Json.obj [("query", Json.str "a"),
          ("results", Json.arr [Json.obj [("title", Json.str "t")]])]])]⟩)).fst
      = .ok [⟨"a", [⟨some "t", none, none, none⟩], 1⟩]
    ∧ (SearchResponse.mk "a" [⟨some "t", none, none, none⟩] 1).total_results
        = (SearchResponse.mk "a" [⟨some "t", none, none, none⟩] 1).results.length :=
  ⟨rfl,
   c2_total_results_invariant ["a"] none 10 10000 (some "k") none
     (fun _ => ⟨200, "", Json.obj [("results", Json.arr [Json.obj [("query", Json.str "a"),
       ("results", Json.arr [Json.obj [("title", Json.str "t")]])]])]⟩)
     [⟨"a", [⟨some "t", none, none, none⟩], 1⟩] rfl
     ⟨"a", [⟨some "t", none, none, none⟩], 1⟩ (List.mem_singleton.mpr rfl)⟩

/-- C3: when the raw results collection of the 200 body is empty or not a
list, `parallel_search` returns exactly one empty `SearchResponse` per input
query, the i-th carrying the i-th query, with empty results and
`total_results = 0`. -/
theorem c3_empty_fallback : ∀ (qs : List String) (obj : Option String) (mr mc : Int)
    (apiKey envKey : Option String) (k : String) (r : HttpResponse) (fs : List (String × Json)),
    qs ≠ [] →
    resolveApiKey apiKey envKey = some k →
    r.status = 200 →
    r.json = Json.obj fs →
    (∀ l, (lookupKey fs "results").getD (Json.arr []) = Json.arr l → l = []) →
    (parallelSearch qs obj mr mc apiKey envKey fun _ => r).fst
      = .ok (qs.map fun q => ⟨q, [], 0⟩)
    ∧ (qs.map fun q => (⟨q, [], 0⟩ : SearchResponse)).length = qs.length := by
  intro qs obj mr mc apiKey envKey k r fs _ hk hs hjson hempty
  refine ⟨?_, by simp⟩
  rw [parallelSearch_const_run hk hs, hjson]
  unfold normalizeSearch
  rw [show pyGetD (Json.obj fs) "results" (Json.arr [])
      = .ok ((lookupKey fs "results").getD (Json.arr [])) from rfl]
  simp only
  split
  · rename_i g gs heq
    exact absurd (hempty (g :: gs) heq) (by simp)
  · rfl

/-- C3 (witness): three queries against a 200 body with no usable results
list yield exactly three empty responses. -/
theorem c3_witness :
    (parallelSearch ["a", "b", "c"] none 10 10000 (some "k") none
        (fun _ => ⟨200, "", Json.obj [("results", Json.str "nope")]⟩)).fst
      = .ok [⟨"a", [], 0⟩, ⟨"b", [], 0⟩, ⟨"c", [], 0⟩] := by
  have h := (c3_empty_fallback ["a", "b", "c"] none 10 10000 (some "k") none "k"
    ⟨200, "", Json.obj [("results", Json.str "nope")]⟩ [("results", Json.str "nope")]
    (by decide) rfl rfl rfl (by intro l hl; cases hl)).left
  simpa using h

/-- C6: with no explicit api_key override and no environment-sourced value,
both adapters fail with the configuration `ValueError` and issue no outbound
HTTP request. -/
theorem c6_missing_credential : ∀ (qs : List String) (obj : Option String) (mr mc : Int)
    (respond : OutboundRequest → HttpResponse) (urls : List String) (obj2 : Option String)
    (ex fc : Bool) (respond2 : OutboundRequest → HttpResponse),
    parallelSearch qs obj mr mc none none respond
      = (.error (.configError "PARALLEL_API_KEY environment variable not set"), [])
    ∧ extract urls obj2 ex fc none none respond2
      = (.error (.configError "PARALLEL_API_KEY environment variable not set"), []) := by
  intros
  exact ⟨rfl, rfl⟩

theorem parseFlatItem_excerpt {fs : List (String × Json)} {sr : SearchResult}
    (h : parseFlatItem (Json.obj fs) = .ok sr) : flatExcerpt fs = .ok sr.excerpt := by
  simp only [parseFlatItem] at h
  repeat' split at h
  all_goals cases h
  all_goals assumption

theorem flatExcerpt_of_strs {fs : List (String × Json)} {e : Json} {es : List Json}
    {strs : List String}
    (h1 : lookupKey fs "excerpts" = some (Json.arr (e :: es)))
    (h2 : allStrings (e :: es) = some strs) :
    flatExcerpt fs = .ok (some (String.intercalate "\n\n" strs)) := by
  unfold flatExcerpt
  rw [h1]
  simp only [Option.getD_some, Json.truthy, List.isEmpty_cons, Bool.not_false, if_true]
  simp [joinBlankLine, h2]

theorem flatExcerpt_content {fs : List (String × Json)}
    (h1 : lookupKey fs "excerpts" = none) :
    flatExcerpt fs = validateOptStr ((lookupKey fs "content").getD .null) := by
  unfold flatExcerpt
  rw [h1]
  simp [Json.truthy]

/-- C4 (counterexample): a flat-shape item whose `excerpts` key is present
but holds the empty list does not get the joined-excerpts excerpt (which
would be `""`); it falls back to the `content` field instead. -/
theorem c4_counterexample :
    (parallelSearch ["q"] none 10 10000 (some "k") none (fun _ => ⟨200, "",
        Json.obj [("results", Json.arr [Json.obj [("excerpts", Json.arr []),
          ("content", Json.str "x")]])]⟩)).fst
      = .ok [⟨"q", [⟨none, none, some "x", none⟩], 1⟩]
    ∧ (some "x" : Option String) ≠ some (String.intercalate "\n\n" []) :=
  ⟨rfl, by decide⟩

theorem flatExcerpt_falsy {fs : List (String × Json)}
    (h : ((lookupKey fs "excerpts").getD Json.null).truthy = false) :
    flatExcerpt fs = validateOptStr ((lookupKey fs "content").getD .null) := by
  unfold flatExcerpt
  simp [h]

/-- C4 (amended): for a flat-shape payload item, when the `excerpts` key
holds a non-empty list of strings the resulting excerpt is the elements
joined with a blank-line separator; when the `excerpts` key is absent — or
present but empty (Python-falsy, e.g. `[]` or `null`) — the excerpt falls
back to the item's scalar `content` field. -/
theorem c4_flat_excerpt : ∀ (fs : List (String × Json)) (e : Json) (es : List Json)
    (strs : List String) (c c2 : String) (sr sr2 sr3 : SearchResult),
    (lookupKey fs "excerpts" = some (Json.arr (e :: es)) →
      allStrings (e :: es) = some strs →
      parseFlatItem (Json.obj fs) = .ok sr →
      sr.excerpt = some (String.intercalate "\n\n" strs))
    ∧ (lookupKey fs "excerpts" = none →
      lookupKey fs "content" = some (Json.str c) →
      parseFlatItem (Json.obj fs) = .ok sr2 →
      sr2.excerpt = some c)
    ∧ (((lookupKey fs "excerpts").getD Json.null).truthy = false →
      lookupKey fs "content" = some (Json.str c2) →
      parseFlatItem (Json.obj fs) = .ok sr3 →
      sr3.excerpt = some c2) := by
  intro fs e es strs c c2 sr sr2 sr3
  refine ⟨?_, ?_, ?_⟩
  · intro h1 h2 h3
    have hfe := parseFlatItem_excerpt h3
    rw [flatExcerpt_of_strs h1 h2] at hfe
    exact (Except.ok.inj hfe).symm
  · intro h1 h2 h3
    have hfe := parseFlatItem_excerpt h3
    rw [flatExcerpt_content h1, h2] at hfe
    simp only [Option.getD_some, validateOptStr] at hfe
    exact (Except.ok.inj hfe).symm
  · intro h1 h2 h3
    have hfe := parseFlatItem_excerpt h3
    rw [flatExcerpt_falsy h1, h2] at hfe
    simp only [Option.getD_some, validateOptStr] at hfe
    exact (Except.ok.inj hfe).symm

/-- C4 (witness): `excerpts: ["a", "b"]` yields excerpt `"a\n\nb"`; a
missing `excerpts` key with `content: "x"` yields excerpt `"x"`; and a
present-but-falsy `excerpts: null` with `content: "y"` yields excerpt
`"y"`. -/
theorem c4_witness :
    parseFlatItem (Json.obj [("excerpts", Json.arr [Json.str "a", Json.str "b"])])
      = .ok ⟨none, none, some "a\n\nb", none⟩
    ∧ (SearchResult.mk none none (some "a\n\nb") none).excerpt
        = some (String.intercalate "\n\n" ["a", "b"])
    ∧ parseFlatItem (Json.obj [("content", Json.str "x")])
      = .ok ⟨none, none, some "x", none⟩
    ∧ (SearchResult.mk none none (some "x") none).excerpt = some "x"
    ∧ parseFlatItem (Json.obj [("excerpts", Json.null), ("content", Json.str "y")])
      = .ok ⟨none, none, some "y", none⟩
    ∧ (SearchResult.mk none none (some "y") none).excerpt = some "y" :=
  ⟨rfl,
   (c4_flat_excerpt [("excerpts", Json.arr [Json.str "a", Json.str "b"])]
      (Json.str "a") [Json.str "b"] ["a", "b"] "x" "y"
      ⟨none, none, some "a\n\nb", none⟩ ⟨none, none, some "x", none⟩
      ⟨none, none, some "y", none⟩).1 rfl rfl rfl,
   rfl,
   (c4_flat_excerpt [("content", Json.str "x")]
      (Json.str "a") [Json.str "b"] ["a", "b"] "x" "y"
      ⟨none, none, some "a\n\nb", none⟩ ⟨none, none, some "x", none⟩
      ⟨none, none, some "y", none⟩).2.1 rfl rfl rfl,
   rfl,
   (c4_flat_excerpt [("excerpts", Json.null), ("content", Json.str "y")]
      (Json.str "a") [Json.str "b"] ["a", "b"] "x" "y"
      ⟨none, none, some "a\n\nb", none⟩ ⟨none, none, some "x", none⟩
      ⟨none, none, some "y", none⟩).2.2 rfl rfl rfl⟩

/-- C5: when no objective is supplied, `parallel_search` issues exactly one
outbound request whose body's `objective` field is the string
`"Find relevant information for: "` followed by the comma-joined queries. -/
theorem c5_default_objective : ∀ (qs : List String) (mr mc : Int)
    (apiKey envKey : Option String) (k : String) (respond : OutboundRequest → HttpResponse),
    resolveApiKey apiKey envKey = some k →
    (parallelSearch qs none mr mc apiKey envKey respond).snd
      = [mkSearchRequest k qs none mr mc]
    ∧ (mkSearchRequest k qs none mr mc).body
        = Json.obj [("search_queries", Json.arr (qs.map Json.str)),
                    ("max_results", Json.num mr),
                    ("excerpts", Json.obj [("max_chars_per_result", Json.num mc)]),
                    ("objective", Json.str ("Find relevant information for: "
                      ++ String.intercalate ", " qs))] := by
  intro qs mr mc apiKey envKey k respond hk
  constructor
  · unfold parallelSearch
    rw [hk]
    simp only
    split <;> rfl
  · rfl

/-- C5 (witness): queries `["a", "b"]` yield the outbound objective
`"Find relevant information for: a, b"`. -/
theorem c5_witness :
    ((parallelSearch ["a", "b"] none 10 10000 (some "k") none
        (fun _ => ⟨200, "", Json.null⟩)).snd
      = [mkSearchRequest "k" ["a", "b"] none 10 10000]
    ∧ (mkSearchRequest "k" ["a", "b"] none 10 10000).body
        = Json.obj [("search_queries", Json.arr [Json.str "a", Json.str "b"]),
                    ("max_results", Json.num 10),
                    ("excerpts", Json.obj [("max_chars_per_result", Json.num 10000)]),
                    ("objective", Json.str "Find relevant information for: a, b")])
    ∧ "Find relevant information for: " ++ String.intercalate ", " ["a", "b"]
        = "Find relevant information for: a, b" :=
  ⟨c5_default_objective ["a", "b"] 10 10000 (some "k") none "k"
     (fun _ => ⟨200, "", Json.null⟩) rfl, rfl⟩

/-- C7: on any non-200 remote status, both adapters fail with an error whose
message carries the numeric status code and the raw response body verbatim,
and each adapter issues exactly one outbound request (no retry). -/
theorem c7_non_200 : ∀ (qs : List String) (obj : Option String) (mr mc : Int)
    (apiKey envKey : Option String) (k : String) (r : HttpResponse)
    (urls : List String) (obj2 : Option String) (ex fc : Bool),
    resolveApiKey apiKey envKey = some k →
    r.status ≠ 200 →
    ((parallelSearch qs obj mr mc apiKey envKey fun _ => r).fst
        = .error (.apiError ("Parallel API error (" ++ toString r.status ++ "): " ++ r.text))
      ∧ (parallelSearch qs obj mr mc apiKey envKey fun _ => r).snd.length = 1)
    ∧ ((extract urls obj2 ex fc apiKey envKey fun _ => r).fst
        = .error (.apiError ("Parallel API error (" ++ toString r.status ++ "): " ++ r.text))
      ∧ (extract urls obj2 ex fc apiKey envKey fun _ => r).snd.length = 1)
    ∧ (∃ a b : String, "Parallel API error (" ++ toString r.status ++ "): " ++ r.text
        = a ++ toString r.status ++ b)
    ∧ (∃ a b : String, "Parallel API error (" ++ toString r.status ++ "): " ++ r.text
        = a ++ r.text ++ b) := by
  intro qs obj mr mc apiKey envKey k r urls obj2 ex fc hk hs
  refine ⟨⟨?_, ?_⟩, ⟨?_, ?_⟩, ⟨"Parallel API error (", "): " ++ r.text, ?_⟩,
    ⟨"Parallel API error (" ++ toString r.status ++ "): ", "", ?_⟩⟩
  · simp [parallelSearch, hk, hs]
  · simp [parallelSearch, hk, hs]
  · simp [extract, hk, hs]
  · simp [extract, hk, hs]
  · rw [String.append_assoc]
  · simp

/-- C7 (witness): a 500 response with body `"server error"` produces the
error message `"Parallel API error (500): server error"` and one request. -/
theorem c7_witness :
    ((parallelSearch ["q"] none 10 10000 (some "k") none
        (fun _ => ⟨500, "server error", Json.null⟩)).fst
      = .error (.apiError "Parallel API error (500): server error")
    ∧ (parallelSearch ["q"] none 10 10000 (some "k") none
        (fun _ => ⟨500, "server error", Json.null⟩)).snd.length = 1) :=
  ((c7_non_200 ["q"] none 10 10000 (some "k") none "k" ⟨500, "server error", Json.null⟩
      ["u"] none true false rfl (by decide)).left)

/-- C8 (counterexample): with the empty string supplied as objective, the
outbound extract body omits the `objective` key even though an objective was
supplied. -/
theorem c8_counterexample :
    extractBody ["u"] (some "") true false
      = Json.obj [("urls", Json.arr [Json.str "u"]), ("excerpts", Json.bool true),
                  ("full_content", Json.bool false)]
    ∧ lookupKey [("urls", Json.arr [Json.str "u"]), ("excerpts", Json.bool true),
                  ("full_content", Json.bool false)] "objective" = none
    ∧ (some "" : Option String).isSome = true :=
  ⟨rfl, rfl, rfl⟩

/-- C8 (amended): the outbound extract body carries exactly the input urls,
excerpts flag and full_content flag verbatim, and contains an `objective`
key if and only if a truthy (non-empty) objective was supplied — an empty
string objective, like an absent one, leaves the key out entirely rather
than sending null; the body is the one sent in the single outbound
request. -/
theorem c8_extract_body : ∀ (urls : List String) (objective : Option String) (ex fc : Bool)
    (bfs : List (String × Json)) (apiKey envKey : Option String) (k : String)
    (respond : OutboundRequest → HttpResponse),
    extractBody urls objective ex fc = Json.obj bfs →
    resolveApiKey apiKey envKey = some k →
    lookupKey bfs "urls" = some (Json.arr (urls.map Json.str))
    ∧ lookupKey bfs "excerpts" = some (Json.bool ex)
    ∧ lookupKey bfs "full_content" = some (Json.bool fc)
    ∧ (lookupKey bfs "objective").isSome = truthyOptStr objective
    ∧ (∀ s, objective = some s → s ≠ "" → lookupKey bfs "objective" = some (Json.str s))
    ∧ (extract urls objective ex fc apiKey envKey respond).snd
        = [mkExtractRequest k urls objective ex fc]
    ∧ (mkExtractRequest k urls objective ex fc).body = extractBody urls objective ex fc := by
  intro urls objective ex fc bfs apiKey envKey k respond hb hk
  have hsnd : (extract urls objective ex fc apiKey envKey respond).snd
      = [mkExtractRequest k urls objective ex fc] := by
    unfold extract
    rw [hk]
    simp only
    split <;> rfl
  cases objective with
  | none =>
    simp only [extractBody] at hb
    injection hb with hb2
    subst hb2
    refine ⟨rfl, rfl, rfl, rfl, ?_, hsnd, rfl⟩
    intro s hs
    cases hs
  | some s =>
    by_cases hs : s = ""
    · subst hs
      simp only [extractBody, if_pos rfl] at hb
      injection hb with hb2
      subst hb2
      refine ⟨rfl, rfl, rfl, rfl, ?_, hsnd, rfl⟩
      intro s' heq hne
      injection heq with h3
      exact absurd h3.symm hne
    · simp only [extractBody, if_neg hs] at hb
      injection hb with hb2
      subst hb2
      refine ⟨rfl, rfl, rfl, ?_, ?_, hsnd, rfl⟩
      · simp [truthyOptStr, hs, lookupKey]
      · intro s' heq hne
        injection heq with h3
        subst h3
        rfl

/-- C8 (witness): a concrete call with a non-empty objective carries all
four fields in the outbound body. -/
theorem c8_witness :
    lookupKey [("urls", Json.arr [Json.str "u"]), ("excerpts", Json.bool true),
               ("full_content", Json.bool false), ("objective", Json.str "o")] "urls"
      = some (Json.arr [Json.str "u"])
    ∧ lookupKey [("urls", Json.arr [Json.str "u"]), ("excerpts", Json.bool true),
               ("full_content", Json.bool false), ("objective", Json.str "o")] "excerpts"
      = some (Json.bool true)
    ∧ lookupKey [("urls", Json.arr [Json.str "u"]), ("excerpts", Json.bool true),
               ("full_content", Json.bool false), ("objective", Json.str "o")] "full_content"
      = some (Json.bool false)
    ∧ (lookupKey [("urls", Json.arr [Json.str "u"]), ("excerpts", Json.bool true),
               ("full_content", Json.bool false), ("objective", Json.str "o")] "objective").isSome
      = truthyOptStr (some "o")
    ∧ (∀ s, (some "o" : Option String) = some s → s ≠ "" →
        lookupKey [("urls", Json.arr [Json.str "u"]), ("excerpts", Json.bool true),
               ("full_content", Json.bool false), ("objective", Json.str "o")] "objective"
          = some (Json.str s))
    ∧ (extract ["u"] (some "o") true false (some "k") none
        (fun _ => ⟨200, "", Json.obj []⟩)).snd
      = [mkExtractRequest "k" ["u"] (some "o") true false]
    ∧ (mkExtractRequest "k" ["u"] (some "o") true false).body
      = extractBody ["u"] (some "o") true false :=
  c8_extract_body ["u"] (some "o") true false
    [("urls", Json.arr [Json.str "u"]), ("excerpts", Json.bool true),
     ("full_content", Json.bool false), ("objective", Json.str "o")]
    (some "k") none "k" (fun _ => ⟨200, "", Json.obj []⟩) rfl rfl

/-- C10: an empty-string objective behaves exactly as an absent objective:
the whole `parallel_search` call (which then sends the synthesized default
objective) and the whole `extract` call (which then omits the `objective`
key) are unchanged by replacing `some ""` with `none`. -/
theorem c10_empty_objective : ∀ (qs : List String) (mr mc : Int)
    (apiKey envKey : Option String) (respond respond2 : OutboundRequest → HttpResponse)
    (urls : List String) (ex fc : Bool),
    parallelSearch qs (some "") mr mc apiKey envKey respond
      = parallelSearch qs none mr mc apiKey envKey respond
    ∧ extract urls (some "") ex fc apiKey envKey respond2
      = extract urls none ex fc apiKey envKey respond2 := by
  intro qs mr mc apiKey envKey respond respond2 urls ex fc
  have hsb : searchBody qs (some "") mr mc = searchBody qs none mr mc := rfl
  have heb : extractBody urls (some "") ex fc = extractBody urls none ex fc := rfl
  constructor
  · unfold parallelSearch
    cases resolveApiKey apiKey envKey <;> simp [mkSearchRequest, hsb]
  · unfold extract
    cases resolveApiKey apiKey envKey <;> simp [mkExtractRequest, heb]

theorem validateOptStr_wf {o : Option Json} (h : wfLeafVal o = true) :
    ∃ r, validateOptStr (o.getD .null) = .ok r := by
  cases o with
  | none => exact ⟨none, rfl⟩
  | some v =>
    cases v with
    | null => exact ⟨none, rfl⟩
    | str s => exact ⟨some s, rfl⟩
    | bool b => simp [wfLeafVal] at h
    | num n => simp [wfLeafVal] at h
    | arr es => simp [wfLeafVal] at h
    | obj fs => simp [wfLeafVal] at h

theorem groupedExcerptVal_wf {fs : List (String × Json)}
    (he : wfLeafVal (lookupKey fs "excerpt") = true)
    (hc : wfLeafVal (lookupKey fs "content") = true) :
    ∃ r, validateOptStr (groupedExcerptVal fs) = .ok r := by
  unfold groupedExcerptVal
  cases hle : lookupKey fs "excerpt" with
  | none =>
    simp only [Option.getD_none, Json.truthy, if_false, Bool.false_eq_true, if_neg]
    exact validateOptStr_wf hc
  | some v =>
    rw [hle] at he
    cases v with
    | null =>
      simp only [Option.getD_some, Json.truthy, Bool.false_eq_true, if_neg]
      exact validateOptStr_wf hc
    | str s =>
      by_cases hs : s = ""
      · subst hs
        simp only [Option.getD_some, Json.truthy]
        norm_num
        exact validateOptStr_wf hc
      · simp only [Option.getD_some, Json.truthy]
        rw [if_pos (by simpa using hs)]
        exact ⟨some s, rfl⟩
    | bool b => simp [wfLeafVal] at he
    | num n => simp [wfLeafVal] at he
    | arr es => simp [wfLeafVal] at he
    | obj fs2 => simp [wfLeafVal] at he

theorem parseGroupedItem_wf {j : Json} (h : wfGroupedItem j = true) :
    ∃ sr, parseGroupedItem j = .ok sr := by
  cases j <;> simp [wfGroupedItem] at h
  case obj fs =>
  obtain ⟨⟨⟨⟨ht, hu⟩, he⟩, hc⟩, hs⟩ := h
  rcases validateOptStr_wf ht with ⟨t, hT⟩
  rcases validateOptStr_wf hu with ⟨u, hU⟩
  rcases groupedExcerptVal_wf he hc with ⟨ex, hE⟩
  rcases validateOptStr_wf hs with ⟨so, hS⟩
  exact ⟨⟨t, u, ex, so⟩, by simp [parseGroupedItem, hT, hU, hE, hS]⟩

theorem allStrings_of_all {es : List Json}
    (h : (es.all fun e => match e with | .str _ => true | _ => false) = true) :
    ∃ strs, allStrings es = some strs := by
  induction es with
  | nil => exact ⟨[], rfl⟩
  | cons e es ih =>
    simp only [List.all_cons, Bool.and_eq_true] at h
    obtain ⟨h1, h2⟩ := h
    rcases ih h2 with ⟨strs, hstrs⟩
    cases e
    case str s => exact ⟨s :: strs, by simp [allStrings, hstrs]⟩
    all_goals simp at h1

theorem flatExcerpt_wf {fs : List (String × Json)}
    (he : (match lookupKey fs "excerpts" with
            | none => true
            | some .null => true
            | some v => isStrList v) = true)
    (hc : wfLeafVal (lookupKey fs "content") = true) :
    ∃ r, flatExcerpt fs = .ok r := by
  unfold flatExcerpt
  cases hle : lookupKey fs "excerpts" with
  | none =>
    simp only [Option.getD_none, Json.truthy, Bool.false_eq_true, if_neg]
    exact validateOptStr_wf hc
  | some v =>
    rw [hle] at he
    cases v with
    | null =>
      simp only [Option.getD_some, Json.truthy, Bool.false_eq_true, if_neg]
      exact validateOptStr_wf hc
    | arr es =>
      cases es with
      | nil =>
        simp only [Option.getD_some, Json.truthy, List.isEmpty_nil, Bool.not_true,
          Bool.false_eq_true, if_neg]
        exact validateOptStr_wf hc
      | cons e es2 =>
        simp only [isStrList] at he
        rcases allStrings_of_all he with ⟨strs, hstrs⟩
        simp only [Option.getD_some, Json.truthy, List.isEmpty_cons, Bool.not_false, if_true]
        exact ⟨some (String.intercalate "\n\n" strs), by simp [joinBlankLine, hstrs]⟩
    | str s => simp [isStrList] at he
    | bool b => simp [isStrList] at he
    | num n => simp [isStrList] at he
    | obj fs2 => simp [isStrList] at he

theorem parseFlatItem_wf {j : Json} (h : wfFlatItem j = true) :
    ∃ sr, parseFlatItem j = .ok sr := by
  cases j <;> simp [wfFlatItem] at h
  case obj fs =>
  obtain ⟨⟨⟨⟨ht, hu⟩, he⟩, hc⟩, hs⟩ := h
  rcases validateOptStr_wf ht with ⟨t, hT⟩
  rcases validateOptStr_wf hu with ⟨u, hU⟩
  rcases flatExcerpt_wf he hc with ⟨ex, hE⟩
  rcases validateOptStr_wf hs with ⟨so, hS⟩
  exact ⟨⟨t, u, ex, so⟩, by simp [parseFlatItem, hT, hU, hE, hS]⟩

theorem parseGroup_wf {j : Json} (h : wfGroup j = true) :
    ∃ resp, parseGroup j = .ok resp := by
  cases j <;> simp [wfGroup] at h
  case obj fs =>
  obtain ⟨hq, hr⟩ := h
  have hitems : ∃ items, pyIter ((lookupKey fs "results").getD (.arr [])) = .ok items
      ∧ items.all wfGroupedItem = true := by
    cases hlr : lookupKey fs "results" with
    | none => exact ⟨[], rfl, rfl⟩
    | some v =>
      rw [hlr] at hr
      cases v with
      | arr items => exact ⟨items, rfl, hr⟩
      | null => simp at hr
      | bool b => simp at hr
      | num n => simp at hr
      | str s => simp at hr
      | obj fs2 => simp at hr
  rcases hitems with ⟨items, hI, hall⟩
  have hsrs : ∃ srs, mapExcept parseGroupedItem items = .ok srs :=
    mapExcept_ok_of_forall fun x hx =>
      parseGroupedItem_wf (by exact List.all_eq_true.mp hall x hx)
  rcases hsrs with ⟨srs, hS⟩
  have hquery : ∃ q, validateStr ((lookupKey fs "query").getD (.str "")) = .ok q := by
    cases hlq : lookupKey fs "query" with
    | none => exact ⟨"", rfl⟩
    | some v =>
      rw [hlq] at hq
      cases v with
      | str s => exact ⟨s, rfl⟩
      | null => simp at hq
      | bool b => simp at hq
      | num n => simp at hq
      | arr es => simp at hq
      | obj fs2 => simp at hq
  rcases hquery with ⟨q, hQ⟩
  exact ⟨⟨q, srs, srs.length⟩, by simp [parseGroup, hI, hS, hQ]⟩

theorem normalizeSearch_wf (qs : List String) {data : Json}
    (h : wfSearchPayload data = true) :
    ∃ rs, normalizeSearch qs data = .ok rs := by
  cases data with
  | null => exact absurd h (by simp [wfSearchPayload])
  | bool b => exact absurd h (by simp [wfSearchPayload])
  | num n => exact absurd h (by simp [wfSearchPayload])
  | str s => exact absurd h (by simp [wfSearchPayload])
  | arr es => exact absurd h (by simp [wfSearchPayload])
  | obj fs =>
    simp only [wfSearchPayload] at h
    cases hv : (lookupKey fs "results").getD (Json.arr []) with
    | arr gs =>
      rw [hv] at h
      cases gs with
      | nil =>
        exact ⟨qs.map fun q => ⟨q, [], 0⟩, by simp [normalizeSearch, pyGetD, hv]⟩
      | cons g gs2 =>
        simp only [wfResultsVal] at h
        by_cases hgh : isGroupedHead g
        · rw [if_pos hgh] at h
          rcases mapExcept_ok_of_forall
            (fun x hx => parseGroup_wf (List.all_eq_true.mp h x hx)) with ⟨rs, hrs⟩
          exact ⟨rs, by simp [normalizeSearch, pyGetD, hv, hgh, hrs]⟩
        · rw [if_neg hgh] at h
          rcases mapExcept_ok_of_forall
            (fun x hx => parseFlatItem_wf (List.all_eq_true.mp h x hx)) with ⟨srs, hS⟩
          exact ⟨[⟨String.intercalate ", " qs, srs, srs.length⟩],
            by simp [normalizeSearch, pyGetD, hv, hgh, hS]⟩
    | null => exact ⟨qs.map fun q => ⟨q, [], 0⟩, by simp [normalizeSearch, pyGetD, hv]⟩
    | bool b => exact ⟨qs.map fun q => ⟨q, [], 0⟩, by simp [normalizeSearch, pyGetD, hv]⟩
    | num n => exact ⟨qs.map fun q => ⟨q, [], 0⟩, by simp [normalizeSearch, pyGetD, hv]⟩
    | str s => exact ⟨qs.map fun q => ⟨q, [], 0⟩, by simp [normalizeSearch, pyGetD, hv]⟩
    | obj fs2 => exact ⟨qs.map fun q => ⟨q, [], 0⟩, by simp [normalizeSearch, pyGetD, hv]⟩

theorem allObjs_of_all {es : List Json}
    (h : (es.all fun e => match e with | .obj _ => true | _ => false) = true) :
    ∃ os, allObjs es = some os := by
  induction es with
  | nil => exact ⟨[], rfl⟩
  | cons e es ih =>
    simp only [List.all_cons, Bool.and_eq_true] at h
    obtain ⟨h1, h2⟩ := h
    rcases ih h2 with ⟨os, hos⟩
    cases e
    case obj fs => exact ⟨fs :: os, by simp [allObjs, hos]⟩
    all_goals simp at h1

theorem parseExtractItem_wf {j : Json} (h : wfExtractItem j = true) :
    ∃ er, parseExtractItem j = .ok er := by
  cases j <;> simp [wfExtractItem] at h
  case obj fs =>
  obtain ⟨⟨⟨⟨hurl, ht⟩, hp⟩, he⟩, hf⟩ := h
  have hu : ∃ u, validateStr ((lookupKey fs "url").getD (.str "")) = .ok u := by
    cases hlu : lookupKey fs "url" with
    | none => exact ⟨"", rfl⟩
    | some v =>
      rw [hlu] at hurl
      cases v with
      | str s => exact ⟨s, rfl⟩
      | null => simp at hurl
      | bool b => simp at hurl
      | num n => simp at hurl
      | arr es => simp at hurl
      | obj fs2 => simp at hurl
  have hex : ∃ ex, validateOptStrList ((lookupKey fs "excerpts").getD .null) = .ok ex := by
    cases hle : lookupKey fs "excerpts" with
    | none => exact ⟨none, rfl⟩
    | some v =>
      rw [hle] at he
      cases v with
      | null => exact ⟨none, rfl⟩
      | arr es =>
        simp only [isStrList] at he
        rcases allStrings_of_all he with ⟨strs, hstrs⟩
        exact ⟨some strs, by simp [validateOptStrList, hstrs]⟩
      | str s => simp [isStrList] at he
      | bool b => simp [isStrList] at he
      | num n => simp [isStrList] at he
      | obj fs2 => simp [isStrList] at he
  rcases hu with ⟨u, hU⟩
  rcases validateOptStr_wf ht with ⟨t, hT⟩
  rcases validateOptStr_wf hp with ⟨p, hP⟩
  rcases hex with ⟨ex, hE⟩
  rcases validateOptStr_wf hf with ⟨f, hF⟩
  exact ⟨⟨u, t, p, ex, f⟩, by simp [parseExtractItem, hU, hT, hP, hE, hF]⟩

theorem normalizeExtract_wf {data : Json} (h : wfExtractPayload data = true) :
    ∃ er, normalizeExtract data = .ok er := by
  cases data <;> simp [wfExtractPayload] at h
  case obj dfs =>
  obtain ⟨⟨hid, hres⟩, herr⟩ := h
  have hitems : ∃ items, pyIter ((lookupKey dfs "results").getD (.arr [])) = .ok items
      ∧ items.all wfExtractItem = true := by
    cases hlr : lookupKey dfs "results" with
    | none => exact ⟨[], rfl, rfl⟩
    | some v =>
      rw [hlr] at hres
      cases v with
      | arr items => exact ⟨items, rfl, hres⟩
      | null => simp at hres
      | bool b => simp at hres
      | num n => simp at hres
      | str s => simp at hres
      | obj fs2 => simp at hres
  rcases hitems with ⟨items, hI, hall⟩
  rcases mapExcept_ok_of_forall
    (fun x hx => parseExtractItem_wf (List.all_eq_true.mp hall x hx)) with ⟨results, hR⟩
  rcases validateOptStr_wf hid with ⟨eid, hEid⟩
  have herrs : ∃ errs, validateListDict ((lookupKey dfs "errors").getD (.arr [])) = .ok errs := by
    cases hle : lookupKey dfs "errors" with
    | none => exact ⟨[], rfl⟩
    | some v =>
      rw [hle] at herr
      cases v with
      | arr es =>
        rcases allObjs_of_all herr with ⟨os, hos⟩
        exact ⟨os, by simp [validateListDict, hos]⟩
      | null => simp at herr
      | bool b => simp at herr
      | num n => simp at herr
      | str s => simp at herr
      | obj fs2 => simp at herr
  rcases herrs with ⟨errs, hErrs⟩
  exact ⟨⟨eid, results, errs⟩, by simp [normalizeExtract, hI, hR, hEid, hErrs]⟩

theorem extract_const_run {urls : List String} {obj : Option String} {ex fc : Bool}
    {apiKey envKey : Option String} {k : String} {r : HttpResponse}
    (hk : resolveApiKey apiKey envKey = some k) (hs : r.status = 200) :
    (extract urls obj ex fc apiKey envKey fun _ => r).fst
      = (normalizeExtract r.json).mapError AdapterError.pyError := by
  simp [extract, hk, hs]

/-- C9 (counterexample): normalization of a 200 body is not total — a
results list whose element is not an object (here the string `"x"`) makes
`parallel_search` raise (`AttributeError` on `item.get`) instead of
resolving to defaults. -/
theorem c9_counterexample :
    (parallelSearch ["q"] none 10 10000 (some "k") none
        (fun _ => ⟨200, "", Json.obj [("results", Json.arr [Json.str "x"])]⟩)).fst
      = .error (.pyError .attributeError) := rfl

/-- C9 (amended): normalization is permissive about absent fields but not
total over arbitrary 200 bodies: for every 200 body that is a JSON object
whose nested collections are lists of objects and whose consulted fields,
when present, carry values of the declared types (any subset of fields may
be absent — `wfSearchPayload` / `wfExtractPayload`), both adapters
normalize without raising; malformed nested values (such as a non-object
results element) do raise. -/
theorem c9_permissive_normalization : ∀ (qs : List String) (obj obj2 : Option String)
    (mr mc : Int) (apiKey envKey : Option String) (k : String) (r r2 : HttpResponse)
    (urls : List String) (ex fc : Bool),
    resolveApiKey apiKey envKey = some k →
    r.status = 200 → wfSearchPayload r.json = true →
    r2.status = 200 → wfExtractPayload r2.json = true →
    (∃ rs, (parallelSearch qs obj mr mc apiKey envKey fun _ => r).fst = .ok rs)
    ∧ (∃ er, (extract urls obj2 ex fc apiKey envKey fun _ => r2).fst = .ok er) := by
  intro qs obj obj2 mr mc apiKey envKey k r r2 urls ex fc hk h200 hwf h200b hwf2
  constructor
  · rcases normalizeSearch_wf qs hwf with ⟨rs, hrs⟩
    exact ⟨rs, by rw [parallelSearch_const_run hk h200, hrs]; rfl⟩
  · rcases normalizeExtract_wf hwf2 with ⟨er, her⟩
    exact ⟨er, by rw [extract_const_run hk h200b, her]; rfl⟩

/-- C9 (witness): a grouped payload with every optional field absent and an
empty extract body both normalize successfully. -/
theorem c9_witness :
    wfSearchPayload (Json.obj [("results", Json.arr [Json.obj [("query", Json.str "q")]])])
      = true
    ∧ wfExtractPayload (Json.obj []) = true
    ∧ ((∃ rs, (parallelSearch ["q"] none 10 10000 (some "k") none
          fun _ => ⟨200, "", Json.obj [("results",
            Json.arr [Json.obj [("query", Json.str "q")]])]⟩).fst = .ok rs)
      ∧ (∃ er, (extract ["u"] none true false (some "k") none
          fun _ => ⟨200, "", Json.obj []⟩).fst = .ok er)) :=
  ⟨rfl, rfl,
   c9_permissive_normalization ["q"] none none 10 10000 (some "k") none "k"
     ⟨200, "", Json.obj [("results", Json.arr [Json.obj [("query", Json.str "q")]])]⟩
     ⟨200, "", Json.obj []⟩ ["u"] true false rfl rfl rfl rfl rfl⟩
